import Mathlib

/-!
Verification of the orchestration entry point `run_distil.py` of the
fast-coref distillation repository.

The script is straight-line glue code: it parses a run configuration,
optionally initializes experiment tracking, manages the output directory,
selects the device, seeds, builds tokenizer/models/datasets/samplers,
optionally trains, and evaluates.  We embed it as a pure function from a
run configuration, an environment (availability of the accelerator, the
supported-model list, the base-model identifiers reported by the loaded
checkpoints) and a filesystem fragment to a final filesystem, an event
trace, and an `Except` outcome mirroring the Python exceptions.
-/

deriving instance DecidableEq for Except

namespace RunDistil

/-- Run configuration, as produced by `cli.parse_args` (the fields that the
entry point `run_distil.py` reads). -/
structure Args where
  experiment_name : Option String
  output_dir : Option String
  output_file : Option String
  overwrite_output_dir : Bool
  do_train : Bool
  device : String
  seed : Nat
  model_name_or_path : String
  model_type : String
  deriving DecidableEq, Repr

/-- Filesystem fragment: an association list from a directory path to the
list of its direct entries.  A path nested inside directory `d` is one whose
key starts with `d ++ "/"`. -/
abbrev FS : Type := List (String × List String)

/-- First binding of path `p` in the filesystem. -/
def FS.lookup (fs : FS) (p : String) : Option (List String) :=
  match fs with
  | [] => none
  | e :: rest => if e.1 = p then some e.2 else FS.lookup rest p

/-- Embeds `os.path.exists`. -/
def FS.pathExists (fs : FS) (p : String) : Bool :=
  (FS.lookup fs p).isSome

/-- Tests whether `q` lies strictly inside directory `p`. -/
def FS.underDir (p q : String) : Bool :=
  List.isPrefixOf (p.data ++ ['/']) q.data

/-- Embeds `shutil.rmtree p`: removes the directory `p` and everything under it. -/
def FS.rmtree (fs : FS) (p : String) : FS :=
  fs.filter (fun e => !(e.1 = p || FS.underDir p e.1))

/-- Embeds `os.mkdir p`: creates an empty directory `p`. -/
def FS.mkdir (fs : FS) (p : String) : FS :=
  (p, []) :: fs

/-- Directory `p` exists and is empty: its entry list is `[]` and no path is
nested under it. -/
def FS.dirEmpty (fs : FS) (p : String) : Bool :=
  (FS.lookup fs p == some []) && fs.all (fun e => !(FS.underDir p e.1))

/-- Exceptions raised by `run_distil.py`. -/
inductive Err where
  | valueError (msg : String)
  | notImplementedError (msg : String)
  deriving DecidableEq, Repr

/-- Observable calls made by `main`, in program order. -/
inductive Event where
  | configResolution
  | wandbInit (project : String) (config : Args)
  | rmtree (dir : String)
  | mkdir (dir : String)
  | deviceSelect (dev : String)
  | setSeed (seed : Nat)
  | tokenizerLoad
  | getModel (path : String)
  | datasetLoad
  | samplerBuild
  | shuffle (seed : Nat)
  | train
  | evaluate
  deriving DecidableEq, Repr

/-- Facts about the world that `main` consults but does not control:
whether CUDA is available, the contents of `consts.SUPPORTED_MODELS`, and the
`base_model_prefix` reported by the student and teacher checkpoints once
loaded. -/
structure Env where
  cudaAvailable : Bool
  supportedModels : List String
  studentBasePref : String
  teacherBasePref : String
  deriving DecidableEq, Repr

/-- Result of a run of `main`: the final filesystem, the trace of observable
calls, and the outcome (normal return or uncaught exception). -/
structure RunOutcome where
  fs : FS
  trace : List Event
  result : Except Err Unit
  deriving DecidableEq, Repr

/-- The hard-coded teacher checkpoint path at line 80 of `run_distil.py`. -/
def teacherModelPath : String :=
  "/home/nlp/shon711/fastcoref/trained_longformer"

/-- Embeds `get_model` (lines 27-45 of `run_distil.py`), reduced to its control
flow: after loading, it raises `NotImplementedError` when the checkpoint's
base-model identifier is not in `SUPPORTED_MODELS`, with a message naming
`args.model_type` and the supported set. -/
def get_model (basePref : String) (supportedModels : List String)
    (modelType : String) : Except Err Unit :=
  if supportedModels.contains basePref then Except.ok ()
  else Except.error (Err.notImplementedError
    ("Model not supporting " ++ modelType ++ ", choose one of "
      ++ toString supportedModels))

/-- Output-directory lifecycle management (lines 54-67 of `run_distil.py`).
Returns the updated filesystem and the filesystem events performed, or the
`ValueError` raised. -/
def outputDirStep (args : Args) (fs : FS) : Except Err (FS × List Event) :=
  match args.output_dir with
  | some d =>
    if FS.pathExists fs d then
      if args.overwrite_output_dir then
        Except.ok (FS.mkdir (FS.rmtree fs d) d, [Event.rmtree d, Event.mkdir d])
      else
        Except.error (Err.valueError
          ("Output directory (" ++ d
            ++ ") already exists. Use --overwrite_output_dir to overcome."))
    else
      Except.ok (FS.mkdir fs d, [Event.mkdir d])
  | none =>
    if args.do_train then
      Except.error (Err.valueError "Output directory is required while do_train=True.")
    else
      match args.output_file with
      | none => Except.error (Err.valueError "Output directory or output file is required.")
      | some _ => Except.ok (fs, [])

/-- Embeds `main` (lines 48-130 of `run_distil.py`) as a pure function.
Each external call is recorded as an event; an uncaught Python exception
becomes `Except.error`. -/
def main (env : Env) (args : Args) (fs : FS) : RunOutcome :=
  let wandbEvs : List Event :=
    match args.experiment_name with
    | some n => [Event.wandbInit n args]
    | none => []
  let trace1 : List Event := Event.configResolution :: wandbEvs
  match outputDirStep args fs with
  | Except.error e => ⟨fs, trace1, Except.error e⟩
  | Except.ok (fs1, dirEvs) =>
    let dev : String := if env.cudaAvailable then args.device else "cpu"
    let trace2 : List Event :=
      trace1 ++ dirEvs
        ++ [Event.deviceSelect dev, Event.setSeed args.seed, Event.tokenizerLoad]
    match get_model env.studentBasePref env.supportedModels args.model_type with
    | Except.error e =>
      ⟨fs1, trace2 ++ [Event.getModel args.model_name_or_path], Except.error e⟩
    | Except.ok _ =>
      match get_model env.teacherBasePref env.supportedModels args.model_type with
      | Except.error e =>
        ⟨fs1, trace2 ++ [Event.getModel args.model_name_or_path,
          Event.getModel teacherModelPath], Except.error e⟩
      | Except.ok _ =>
        let trace3 : List Event :=
          trace2 ++ [Event.getModel args.model_name_or_path,
            Event.getModel teacherModelPath, Event.datasetLoad, Event.samplerBuild]
        let trainEvs : List Event :=
          if args.do_train then
            [Event.samplerBuild, Event.shuffle args.seed,
             Event.samplerBuild, Event.shuffle args.seed, Event.train]
          else []
        ⟨fs1, trace3 ++ trainEvs ++ [Event.evaluate], Except.ok ()⟩

/-- Is this event a `wandb.init` call? -/
def Event.isWandb : Event → Bool
  | Event.wandbInit _ _ => true
  | _ => false

/-- Is this event the device-placement assignment? -/
def Event.isDevSelect : Event → Bool
  | Event.deviceSelect _ => true
  | _ => false

/-- Is this event a `Dataset.shuffle` call? -/
def Event.isShuffle : Event → Bool
  | Event.shuffle _ => true
  | _ => false

/-- Is this event a filesystem write (`shutil.rmtree` or `os.mkdir`)? -/
def Event.isFsWrite : Event → Bool
  | Event.rmtree _ => true
  | Event.mkdir _ => true
  | _ => false

/-- Modelled from the spec: `datasets.Dataset.shuffle(seed=...)` lives in an
excluded collaborator; the entry point relies only on it being a
deterministic, seed-keyed permutation.  We model the permutation of the `n`
batch indices chosen for seed `seed`. -/
def shufflePerm (seed n : Nat) : List Nat :=
  (List.range n).rotate seed

/-- Modelled from the spec: applying the seed-keyed permutation to a batch
sequence. -/
def shuffleList (seed : Nat) (xs : List α) : List α :=
  (shufflePerm seed xs.length).filterMap (fun i => xs[i]?)

/-! Helper lemmas shared by the claim theorems. -/

theorem get_model_of_supported (bp : String) (sm : List String) (mt : String)
    (h : sm.contains bp = true) : get_model bp sm mt = Except.ok () := by
  unfold get_model
  rw [h]
  rfl

theorem get_model_of_unsupported (bp : String) (sm : List String) (mt : String)
    (h : sm.contains bp = false) :
    get_model bp sm mt = Except.error (Err.notImplementedError
      ("Model not supporting " ++ mt ++ ", choose one of " ++ toString sm)) := by
  unfold get_model
  rw [h]
  rfl

theorem main_of_dirStep_error (env : Env) (args : Args) (fs : FS) (e : Err)
    (h : outputDirStep args fs = Except.error e) :
    main env args fs =
      ⟨fs, Event.configResolution ::
        (match args.experiment_name with
         | some n => [Event.wandbInit n args]
         | none => []), Except.error e⟩ := by
  unfold main
  rw [h]

theorem main_fs_of_dirStep_ok (env : Env) (args : Args) (fs : FS)
    (fs1 : FS) (evs : List Event)
    (h : outputDirStep args fs = Except.ok (fs1, evs)) :
    (main env args fs).fs = fs1 := by
  unfold main
  rw [h]
  dsimp only
  split
  · rfl
  · split
    · rfl
    · rfl

/-- Claim C1: with an existing output directory and the overwrite flag off,
`main` raises a `ValueError` with a descriptive message. -/
theorem c1_existing_dir_without_overwrite_raises
    (env : Env) (args : Args) (fs : FS) (d : String)
    (hd : args.output_dir = some d)
    (hex : FS.pathExists fs d = true)
    (hov : args.overwrite_output_dir = false) :
    (main env args fs).result = Except.error (Err.valueError
      ("Output directory (" ++ d
        ++ ") already exists. Use --overwrite_output_dir to overcome.")) := by
  have hstep : outputDirStep args fs = Except.error (Err.valueError
      ("Output directory (" ++ d
        ++ ") already exists. Use --overwrite_output_dir to overcome.")) := by
    unfold outputDirStep
    rw [hd]
    simp [hex, hov]
  rw [main_of_dirStep_error env args fs _ hstep]

theorem isPrefixOf_length_le {α : Type} [BEq α] (l1 l2 : List α)
    (h : List.isPrefixOf l1 l2 = true) : l1.length ≤ l2.length := by
  induction l1 generalizing l2 with
  | nil => simp
  | cons a as ih =>
    cases l2 with
    | nil => simp [List.isPrefixOf] at h
    | cons b bs =>
      simp only [List.isPrefixOf, Bool.and_eq_true] at h
      simpa using ih bs h.2

theorem underDir_self_false (d : String) : FS.underDir d d = false := by
  unfold FS.underDir
  cases hp : List.isPrefixOf (d.data ++ [Char.ofNat 47]) d.data
  · rfl
  · exfalso
    have hlen := isPrefixOf_length_le _ _ hp
    simp at hlen

theorem dirEmpty_mkdir_rmtree (fs : FS) (d : String) :
    FS.dirEmpty (FS.mkdir (FS.rmtree fs d) d) d = true := by
  unfold FS.dirEmpty FS.mkdir
  rw [Bool.and_eq_true]
  constructor
  · simp [FS.lookup]
  · rw [List.all_eq_true]
    intro e he
    rcases List.mem_cons.mp he with h | h
    · rw [h]
      simp [underDir_self_false]
    · unfold FS.rmtree at h
      have hpred := List.of_mem_filter h
      simp only [Bool.not_eq_true', Bool.or_eq_false_iff] at hpred
      simp [hpred.2]

/-- Concrete fixtures used by the witness theorems: a filesystem that already
holds an output directory `out` with contents, a run environment with CUDA and
a supported base model, and a training configuration. -/
def fsOut : FS := [("out", ["model.bin"]), ("out/ckpt", []), ("data", ["train.jsonl"])]

def envStd : Env := ⟨true, ["longformer"], "longformer", "longformer"⟩

def argsTrain : Args :=
  ⟨some "distil", some "out", none, false, true, "cuda:0", 42,
    "allenai/longformer-base-4096", "longformer"⟩

/-- Witness for C1 at a concrete run: `out` exists, overwrite is off. -/
theorem c1_witness :
    (main envStd argsTrain fsOut).result = Except.error (Err.valueError
      ("Output directory (" ++ "out"
        ++ ") already exists. Use --overwrite_output_dir to overcome.")) :=
  c1_existing_dir_without_overwrite_raises envStd argsTrain fsOut "out"
    rfl (by decide) rfl

/-- Claim C2: with an existing output directory and the overwrite flag on,
the directory step deletes the directory tree, then recreates the directory,
which afterwards exists and is empty; no error is raised, and `main`
continues with that filesystem. -/
theorem c2_overwrite_clears_and_recreates
    (env : Env) (args : Args) (fs : FS) (d : String)
    (hd : args.output_dir = some d)
    (hex : FS.pathExists fs d = true)
    (hov : args.overwrite_output_dir = true) :
    outputDirStep args fs =
      Except.ok (FS.mkdir (FS.rmtree fs d) d, [Event.rmtree d, Event.mkdir d])
    ∧ FS.dirEmpty (FS.mkdir (FS.rmtree fs d) d) d = true
    ∧ (main env args fs).fs = FS.mkdir (FS.rmtree fs d) d := by
  have hstep : outputDirStep args fs =
      Except.ok (FS.mkdir (FS.rmtree fs d) d, [Event.rmtree d, Event.mkdir d]) := by
    unfold outputDirStep
    rw [hd]
    simp [hex, hov]
  exact ⟨hstep, dirEmpty_mkdir_rmtree fs d,
    main_fs_of_dirStep_ok env args fs _ _ hstep⟩

/-- Witness for C2 at a concrete run: `out` exists, overwrite is on. -/
theorem c2_witness :
    outputDirStep { argsTrain with overwrite_output_dir := true } fsOut =
      Except.ok (FS.mkdir (FS.rmtree fsOut "out") "out",
        [Event.rmtree "out", Event.mkdir "out"])
    ∧ FS.dirEmpty (FS.mkdir (FS.rmtree fsOut "out") "out") "out" = true
    ∧ (main envStd { argsTrain with overwrite_output_dir := true } fsOut).fs =
        FS.mkdir (FS.rmtree fsOut "out") "out" :=
  c2_overwrite_clears_and_recreates envStd
    { argsTrain with overwrite_output_dir := true } fsOut "out"
    rfl (by decide) rfl

/-- Claim C3: with no output directory, `main` raises a `ValueError` both
when training is requested (regardless of the output file, here absent) and
when training is disabled and no output file is supplied. -/
theorem c3_missing_output_path_raises
    (env : Env) (args : Args) (fs : FS)
    (hd : args.output_dir = none) (hf : args.output_file = none) :
    (main env args fs).result = Except.error (Err.valueError
      (if args.do_train then "Output directory is required while do_train=True."
       else "Output directory or output file is required.")) := by
  have hstep : outputDirStep args fs = Except.error (Err.valueError
      (if args.do_train then "Output directory is required while do_train=True."
       else "Output directory or output file is required.")) := by
    unfold outputDirStep
    rw [hd]
    cases htr : args.do_train
    · simp [htr, hf]
    · simp [htr]
  rw [main_of_dirStep_error env args fs _ hstep]

/-- Witness for C3 at a concrete run: training requested, no output paths. -/
theorem c3_witness :
    (main envStd { argsTrain with output_dir := none } fsOut).result =
      Except.error (Err.valueError
        (if ({ argsTrain with output_dir := none } : Args).do_train
         then "Output directory is required while do_train=True."
         else "Output directory or output file is required.")) :=
  c3_missing_output_path_raises envStd { argsTrain with output_dir := none }
    fsOut rfl rfl

/-- Claim C8: in an evaluation-only run that supplies an output directory,
whenever the directory-management step completes it has created the output
directory: the resulting filesystem contains it and an `os.mkdir` call was
performed. -/
theorem c8_dir_created_in_eval_only_runs
    (args : Args) (fs : FS) (d : String) (fs1 : FS) (evs : List Event)
    (hd : args.output_dir = some d) (htr : args.do_train = false)
    (hok : outputDirStep args fs = Except.ok (fs1, evs)) :
    FS.pathExists fs1 d = true ∧ Event.mkdir d ∈ evs := by
  unfold outputDirStep at hok
  rw [hd] at hok
  dsimp only at hok
  split at hok
  · split at hok
    · simp only [Except.ok.injEq, Prod.mk.injEq] at hok
      rcases hok with ⟨h1, h2⟩
      subst h1
      subst h2
      constructor
      · simp [FS.pathExists, FS.lookup, FS.mkdir]
      · simp
    · simp at hok
  · simp only [Except.ok.injEq, Prod.mk.injEq] at hok
    rcases hok with ⟨h1, h2⟩
    subst h1
    subst h2
    constructor
    · simp [FS.pathExists, FS.lookup, FS.mkdir]
    · simp

/-- Witness for C8 at a concrete run: evaluation-only, fresh directory. -/
theorem c8_witness :
    FS.pathExists (FS.mkdir fsOut "newout") "newout" = true
    ∧ Event.mkdir "newout" ∈ [Event.mkdir "newout"] :=
  c8_dir_created_in_eval_only_runs
    { argsTrain with output_dir := some "newout", do_train := false, output_file := some "preds.jsonl" }
    fsOut "newout" (FS.mkdir fsOut "newout") [Event.mkdir "newout"]
    rfl rfl (by decide)

/-- Claim C9: on the error path where the output directory exists and the
overwrite flag is off, the filesystem is returned unchanged, no filesystem
write event was performed, and the run ends with the `ValueError`. -/
theorem c9_error_path_leaves_fs_untouched
    (env : Env) (args : Args) (fs : FS) (d : String)
    (hd : args.output_dir = some d)
    (hex : FS.pathExists fs d = true)
    (hov : args.overwrite_output_dir = false) :
    (main env args fs).fs = fs
    ∧ (main env args fs).trace.filter Event.isFsWrite = []
    ∧ (main env args fs).result = Except.error (Err.valueError
        ("Output directory (" ++ d
          ++ ") already exists. Use --overwrite_output_dir to overcome.")) := by
  have hstep : outputDirStep args fs = Except.error (Err.valueError
      ("Output directory (" ++ d
        ++ ") already exists. Use --overwrite_output_dir to overcome.")) := by
    unfold outputDirStep
    rw [hd]
    simp [hex, hov]
  rw [main_of_dirStep_error env args fs _ hstep]
  refine ⟨rfl, ?_, rfl⟩
  cases hexp : args.experiment_name
  · simp [Event.isFsWrite]
  · simp [Event.isFsWrite]

/-- Witness for C9 at a concrete run: `out` exists, overwrite is off. -/
theorem c9_witness :
    (main envStd argsTrain fsOut).fs = fsOut
    ∧ (main envStd argsTrain fsOut).trace.filter Event.isFsWrite = []
    ∧ (main envStd argsTrain fsOut).result = Except.error (Err.valueError
        ("Output directory (" ++ "out"
          ++ ") already exists. Use --overwrite_output_dir to overcome.")) :=
  c9_error_path_leaves_fs_untouched envStd argsTrain fsOut "out"
    rfl (by decide) rfl

theorem contains_of_get_model_ok (bp : String) (sm : List String) (mt : String)
    (u : Unit) (h : get_model bp sm mt = Except.ok u) : sm.contains bp = true := by
  unfold get_model at h
  cases hc : sm.contains bp
  · rw [hc] at h
    simp at h
  · rfl

theorem outputDirStep_evs_cases (args : Args) (fs : FS) (fs1 : FS) (evs : List Event)
    (h : outputDirStep args fs = Except.ok (fs1, evs)) :
    (∃ d, evs = [Event.rmtree d, Event.mkdir d])
    ∨ (∃ d, evs = [Event.mkdir d]) ∨ evs = [] := by
  unfold outputDirStep at h
  split at h
  · split at h
    · split at h
      · simp only [Except.ok.injEq, Prod.mk.injEq] at h
        exact Or.inl ⟨_, h.2.symm⟩
      · simp at h
    · simp only [Except.ok.injEq, Prod.mk.injEq] at h
      exact Or.inr (Or.inl ⟨_, h.2.symm⟩)
  · split at h
    · simp at h
    · split at h
      · simp at h
      · simp only [Except.ok.injEq, Prod.mk.injEq] at h
        exact Or.inr (Or.inr h.2.symm)

/-- Claim C4: a base-model identifier outside the supported set makes
`get_model` raise a `NotImplementedError` whose message names the supported
set, and this happens during model construction: a run of `main` whose
student or teacher checkpoint reports such an identifier never reaches a
training invocation. -/
theorem c4_unsupported_model_raises_before_training
    (env : Env) (args : Args) (fs : FS) (bp : String)
    (hbp : bp = env.studentBasePref ∨ bp = env.teacherBasePref)
    (hns : env.supportedModels.contains bp = false) :
    get_model bp env.supportedModels args.model_type =
      Except.error (Err.notImplementedError
        ("Model not supporting " ++ args.model_type ++ ", choose one of "
          ++ toString env.supportedModels))
    ∧ Event.train ∉ (main env args fs).trace := by
  refine ⟨get_model_of_unsupported bp _ _ hns, ?_⟩
  unfold main
  cases hstep : outputDirStep args fs with
  | error e =>
    dsimp only
    cases hexp : args.experiment_name <;> simp
  | ok p =>
    obtain ⟨fs1, evs⟩ := p
    dsimp only
    have hevs : Event.train ∉ evs := by
      rcases outputDirStep_evs_cases args fs fs1 evs hstep with ⟨d, h⟩ | ⟨d, h⟩ | h <;>
        subst h <;> simp
    cases hs : get_model env.studentBasePref env.supportedModels args.model_type with
    | error e =>
      dsimp only
      cases hexp : args.experiment_name <;> simp [hevs]
    | ok u =>
      cases ht : get_model env.teacherBasePref env.supportedModels args.model_type with
      | error e =>
        dsimp only
        cases hexp : args.experiment_name <;> simp [hevs]
      | ok v =>
        exfalso
        rcases hbp with hb | hb
        · rw [hb, contains_of_get_model_ok _ _ _ _ hs] at hns
          simp at hns
        · rw [hb, contains_of_get_model_ok _ _ _ _ ht] at hns
          simp at hns

/-- Environment whose student checkpoint reports an unsupported base model. -/
def envBad : Env := ⟨true, ["longformer"], "bert", "longformer"⟩

/-- Witness for C4 at a concrete run: the student checkpoint reports `bert`,
which is not in the supported set. -/
theorem c4_witness :
    get_model "bert" envBad.supportedModels argsTrain.model_type =
      Except.error (Err.notImplementedError
        ("Model not supporting " ++ argsTrain.model_type ++ ", choose one of "
          ++ toString envBad.supportedModels))
    ∧ Event.train ∉ (main envBad argsTrain fsOut).trace :=
  c4_unsupported_model_raises_before_training envBad argsTrain fsOut "bert"
    (Or.inl rfl) (by decide)

/-- Claim C6: the experiment-tracking service is initialized exactly when an
experiment name is supplied, receiving that name as the project together
with the full configuration. -/
theorem c6_wandb_iff_experiment_name (env : Env) (args : Args) (fs : FS) :
    (main env args fs).trace.filter Event.isWandb =
      (match args.experiment_name with
       | some n => [Event.wandbInit n args]
       | none => []) := by
  unfold main
  cases hstep : outputDirStep args fs with
  | error e =>
    cases hexp : args.experiment_name <;> simp [hexp, Event.isWandb]
  | ok p =>
    obtain ⟨fs1, evs⟩ := p
    have hevs : evs.filter Event.isWandb = [] := by
      rcases outputDirStep_evs_cases args fs fs1 evs hstep with ⟨d, h⟩ | ⟨d, h⟩ | h <;>
        subst h <;> simp [Event.isWandb]
    cases hs : get_model env.studentBasePref env.supportedModels args.model_type with
    | error e =>
      cases hexp : args.experiment_name <;>
        simp [hexp, Event.isWandb, List.filter_append, hevs]
    | ok u =>
      cases ht : get_model env.teacherBasePref env.supportedModels args.model_type with
      | error e =>
        cases hexp : args.experiment_name <;>
          simp [hexp, Event.isWandb, List.filter_append, hevs]
      | ok v =>
        cases hexp : args.experiment_name <;> cases htr : args.do_train <;>
          simp [hexp, htr, Event.isWandb, List.filter_append, hevs]

/-- Claim C7: in every run that passes the directory step, the device
assignment happens exactly once, selecting the configured device when CUDA
is available and the CPU otherwise; it is never reassigned. -/
theorem c7_device_selected_once
    (env : Env) (args : Args) (fs : FS) (fs1 : FS) (evs : List Event)
    (hok : outputDirStep args fs = Except.ok (fs1, evs)) :
    (main env args fs).trace.filter Event.isDevSelect =
      [Event.deviceSelect (if env.cudaAvailable then args.device else "cpu")] := by
  unfold main
  rw [hok]
  dsimp only
  have hevs : evs.filter Event.isDevSelect = [] := by
    rcases outputDirStep_evs_cases args fs fs1 evs hok with ⟨d, h⟩ | ⟨d, h⟩ | h <;>
      subst h <;> simp [Event.isDevSelect]
  cases hs : get_model env.studentBasePref env.supportedModels args.model_type with
  | error e =>
    cases hexp : args.experiment_name <;>
      simp [hexp, Event.isDevSelect, List.filter_append, hevs]
  | ok u =>
    cases ht : get_model env.teacherBasePref env.supportedModels args.model_type with
    | error e =>
      cases hexp : args.experiment_name <;>
        simp [hexp, Event.isDevSelect, List.filter_append, hevs]
    | ok v =>
      cases hexp : args.experiment_name <;> cases htr : args.do_train <;>
        simp [hexp, htr, Event.isDevSelect, List.filter_append, hevs]

/-- Witness for C7 at a concrete run that passes the directory step. -/
theorem c7_witness :
    (main envStd { argsTrain with overwrite_output_dir := true } fsOut).trace.filter
        Event.isDevSelect =
      [Event.deviceSelect (if envStd.cudaAvailable
        then ({ argsTrain with overwrite_output_dir := true } : Args).device
        else "cpu")] :=
  c7_device_selected_once envStd { argsTrain with overwrite_output_dir := true }
    fsOut (FS.mkdir (FS.rmtree fsOut "out") "out")
    [Event.rmtree "out", Event.mkdir "out"] (by decide)

theorem main_success_form (env : Env) (args : Args) (fs : FS)
    (h : (main env args fs).result = Except.ok ()) :
    ∃ fs1 evs, outputDirStep args fs = Except.ok (fs1, evs)
      ∧ (main env args fs).trace =
          Event.configResolution ::
            ((match args.experiment_name with
              | some n => [Event.wandbInit n args]
              | none => []) ++ (evs ++
              (Event.deviceSelect (if env.cudaAvailable then args.device else "cpu") ::
               Event.setSeed args.seed :: Event.tokenizerLoad ::
               Event.getModel args.model_name_or_path :: Event.getModel teacherModelPath ::
               Event.datasetLoad :: Event.samplerBuild ::
               ((if args.do_train then
                   [Event.samplerBuild, Event.shuffle args.seed,
                    Event.samplerBuild, Event.shuffle args.seed, Event.train]
                 else []) ++ [Event.evaluate])))) := by
  unfold main at h ⊢
  cases hstep : outputDirStep args fs with
  | error e =>
    rw [hstep] at h
    simp at h
  | ok p =>
    obtain ⟨fs1, evs⟩ := p
    rw [hstep] at h
    dsimp only at h ⊢
    cases hs : get_model env.studentBasePref env.supportedModels args.model_type with
    | error e =>
      rw [hs] at h
      simp at h
    | ok u =>
      rw [hs] at h
      dsimp only at h ⊢
      cases ht : get_model env.teacherBasePref env.supportedModels args.model_type with
      | error e =>
        rw [ht] at h
        simp at h
      | ok v =>
        exact ⟨fs1, evs, rfl, by simp⟩

/-- Training configuration with the overwrite flag, so a run over `fsOut`
passes the directory step and completes. -/
def argsOv : Args := { argsTrain with overwrite_output_dir := true }

/-- Claim C5: on every run that completes normally, the observable calls
happen in the stated order: configuration resolution first, then directory
management (when a directory is supplied, its creation sits between
configuration and device selection), device selection, seeding, tokenizer
loading, student then teacher model construction, dataset loading,
batch-sampler construction, training exactly when requested, and
evaluation last. -/
theorem c5_steps_in_order (env : Env) (args : Args) (fs : FS)
    (h : (main env args fs).result = Except.ok ()) :
    List.Sublist
      ([Event.configResolution,
        Event.deviceSelect (if env.cudaAvailable then args.device else "cpu"),
        Event.setSeed args.seed, Event.tokenizerLoad,
        Event.getModel args.model_name_or_path, Event.getModel teacherModelPath,
        Event.datasetLoad, Event.samplerBuild]
        ++ (if args.do_train then
              [Event.samplerBuild, Event.shuffle args.seed, Event.samplerBuild,
               Event.shuffle args.seed, Event.train]
            else [])
        ++ [Event.evaluate])
      (main env args fs).trace
    ∧ (∀ d, args.output_dir = some d →
        List.Sublist
          [Event.configResolution, Event.mkdir d,
           Event.deviceSelect (if env.cudaAvailable then args.device else "cpu")]
          (main env args fs).trace)
    ∧ (Event.train ∈ (main env args fs).trace ↔ args.do_train = true)
    ∧ (main env args fs).trace.getLast? = some Event.evaluate := by
  obtain ⟨fs1, evs, hstep, htrace⟩ := main_success_form env args fs h
  refine ⟨?_, ?_, ?_, ?_⟩
  · rw [htrace]
    exact List.Sublist.cons₂ _
      ((List.sublist_append_right evs _).trans (List.sublist_append_right _ _))
  · intro d hd
    rw [htrace]
    unfold outputDirStep at hstep
    rw [hd] at hstep
    dsimp only at hstep
    split at hstep
    · split at hstep
      · simp only [Except.ok.injEq, Prod.mk.injEq] at hstep
        rw [← hstep.2]
        cases hexp : args.experiment_name
        · exact List.Sublist.cons₂ _ (List.Sublist.cons _ (List.Sublist.cons₂ _
            (List.Sublist.cons₂ _ (List.nil_sublist _))))
        · exact List.Sublist.cons₂ _ (List.Sublist.cons _ (List.Sublist.cons _
            (List.Sublist.cons₂ _ (List.Sublist.cons₂ _ (List.nil_sublist _)))))
      · simp at hstep
    · simp only [Except.ok.injEq, Prod.mk.injEq] at hstep
      rw [← hstep.2]
      cases hexp : args.experiment_name
      · exact List.Sublist.cons₂ _ (List.Sublist.cons₂ _
          (List.Sublist.cons₂ _ (List.nil_sublist _)))
      · exact List.Sublist.cons₂ _ (List.Sublist.cons _ (List.Sublist.cons₂ _
          (List.Sublist.cons₂ _ (List.nil_sublist _))))
  · have hevs : Event.train ∉ evs := by
      rcases outputDirStep_evs_cases args fs fs1 evs hstep with ⟨d, hh⟩ | ⟨d, hh⟩ | hh <;>
        subst hh <;> simp
    rw [htrace]
    cases hexp : args.experiment_name <;> cases htr : args.do_train <;>
      simp [hexp, htr, hevs]
  · rw [htrace]
    cases htr : args.do_train <;>
      simp [htr, List.getLast?_cons, List.getLast?_append]

/-- Witness for C5 at a concrete run that completes normally. -/
theorem c5_witness :
    List.Sublist
      ([Event.configResolution,
        Event.deviceSelect (if envStd.cudaAvailable then argsOv.device else "cpu"),
        Event.setSeed argsOv.seed, Event.tokenizerLoad,
        Event.getModel argsOv.model_name_or_path, Event.getModel teacherModelPath,
        Event.datasetLoad, Event.samplerBuild]
        ++ (if argsOv.do_train then
              [Event.samplerBuild, Event.shuffle argsOv.seed, Event.samplerBuild,
               Event.shuffle argsOv.seed, Event.train]
            else [])
        ++ [Event.evaluate])
      (main envStd argsOv fsOut).trace
    ∧ (∀ d, argsOv.output_dir = some d →
        List.Sublist
          [Event.configResolution, Event.mkdir d,
           Event.deviceSelect (if envStd.cudaAvailable then argsOv.device else "cpu")]
          (main envStd argsOv fsOut).trace)
    ∧ (Event.train ∈ (main envStd argsOv fsOut).trace ↔ argsOv.do_train = true)
    ∧ (main envStd argsOv fsOut).trace.getLast? = some Event.evaluate :=
  c5_steps_in_order envStd argsOv fsOut (by decide)

theorem filterMap_getElem_zip {α β : Type} (p : List Nat) (xs : List α) (ys : List β)
    (h : xs.length = ys.length) :
    (p.filterMap (fun i => xs[i]?)).zip (p.filterMap (fun i => ys[i]?)) =
      p.filterMap (fun i => (xs.zip ys)[i]?) := by
  induction p with
  | nil => rfl
  | cons i p ih =>
    simp only [List.filterMap_cons]
    cases hx : xs[i]? with
    | none =>
      have hi : xs.length ≤ i := List.getElem?_eq_none_iff.mp hx
      have hy : ys[i]? = none := List.getElem?_eq_none (h ▸ hi)
      have hz : (xs.zip ys)[i]? = none := by
        apply List.getElem?_eq_none
        rw [List.length_zip]
        omega
      rw [hy, hz]
      exact ih
    | some a =>
      have hi : i < xs.length := (List.getElem?_eq_some_iff.mp hx).1
      have hiy : i < ys.length := by omega
      have hy : ys[i]? = some ys[i] := List.getElem?_eq_getElem hiy
      have hz : (xs.zip ys)[i]? = some (xs[i], ys[i]) := by
        have hiz : i < (xs.zip ys).length := by
          rw [List.length_zip]
          omega
        rw [List.getElem?_eq_getElem hiz]
        congr 1
        exact List.getElem_zip
      have hxa : xs[i] = a := by
        have hsome := List.getElem?_eq_getElem hi
        rw [hx] at hsome
        exact (Option.some.injEq _ _).mp hsome.symm
      rw [hy, hz, hxa]
      simp only [List.zip_cons_cons]
      rw [ih]

theorem shuffleList_zip {α β : Type} (seed : Nat) (xs : List α) (ys : List β)
    (h : xs.length = ys.length) :
    (shuffleList seed xs).zip (shuffleList seed ys) = shuffleList seed (xs.zip ys) := by
  unfold shuffleList
  have hlen : (xs.zip ys).length = xs.length := by
    rw [List.length_zip, h, Nat.min_self]
  rw [hlen, ← h]
  exact filterMap_getElem_zip _ xs ys h

/-- Claim C10: in a training run that completes, both `Dataset.shuffle`
calls receive the same seed, `args.seed`; since the shuffle is a
deterministic seed-keyed permutation, equal-length student and teacher
batch sequences receive the same permutation, so corresponding positions
stay aligned (shuffling commutes with pairing). -/
theorem c10_student_teacher_shuffles_aligned
    (env : Env) (args : Args) (fs : FS)
    (h : (main env args fs).result = Except.ok ())
    (htr : args.do_train = true) :
    (main env args fs).trace.filter Event.isShuffle =
      [Event.shuffle args.seed, Event.shuffle args.seed]
    ∧ ∀ (α β : Type) (xs : List α) (ys : List β), xs.length = ys.length →
        (shuffleList args.seed xs).zip (shuffleList args.seed ys) =
          shuffleList args.seed (xs.zip ys) := by
  obtain ⟨fs1, evs, hstep, htrace⟩ := main_success_form env args fs h
  constructor
  · rw [htrace]
    have hevs : evs.filter Event.isShuffle = [] := by
      rcases outputDirStep_evs_cases args fs fs1 evs hstep with ⟨d, hh⟩ | ⟨d, hh⟩ | hh <;>
        subst hh <;> simp [Event.isShuffle]
    cases hexp : args.experiment_name <;>
      simp [hexp, htr, Event.isShuffle, List.filter_append, hevs]
  · intro α β xs ys hlen
    exact shuffleList_zip args.seed xs ys hlen

/-- Witness for C10 at a concrete training run that completes. -/
theorem c10_witness :
    (main envStd argsOv fsOut).trace.filter Event.isShuffle =
      [Event.shuffle argsOv.seed, Event.shuffle argsOv.seed]
    ∧ ∀ (α β : Type) (xs : List α) (ys : List β), xs.length = ys.length →
        (shuffleList argsOv.seed xs).zip (shuffleList argsOv.seed ys) =
          shuffleList argsOv.seed (xs.zip ys) :=
  c10_student_teacher_shuffles_aligned envStd argsOv fsOut (by decide) rfl

end RunDistil
